import Mathlib

/-!
Verification development for the `CloudStorageSync` module of the
digital-planner repository (the folder-support variant of the class).

The JavaScript source is shallowly embedded:
* a planner document (a flat JSON object) is an association list of
  string keys to values, `Doc`;
* the object-spread merge `{ ...localData, ...cloudData }` used by
  `syncData` is modelled by `mergeDocs`, built from `objInsert`
  (JavaScript property assignment: overwrite in place if the key is
  present, append otherwise);
* the network is an oracle `Net` giving the HTTP response of each
  endpoint the class calls, and every adapter method is a pure function
  from the oracle and the mutable object state to a result, the new
  state and the list of HTTP requests it issued;
* thrown `Error(msg)` values are `Except.error msg`, and the `try/catch`
  of `syncData` is the surrounding `match`.
-/

/-- A flat JSON object: an association list from property names to values.
JavaScript objects never hold a key twice; `keysNodup` states that. -/
abbrev Doc (α : Type) := List (String × α)

/-- The keys of a document, in order. -/
def docKeys {α : Type} (o : Doc α) : List String := o.map Prod.fst

/-- A well-formed JSON object holds each key at most once. -/
def keysNodup {α : Type} (o : Doc α) : Prop := (o.map Prod.fst).Nodup

instance {α : Type} (o : Doc α) : Decidable (keysNodup o) := by
  unfold keysNodup; infer_instance

/-- JavaScript property read `o[k]`: the value at the first (hence, for a
well-formed object, the unique) occurrence of the key. -/
def getProp {α : Type} : Doc α → String → Option α
  | [], _ => none
  | (a, v) :: t, k => if k = a then some v else getProp t k

/-- First-some choice on options; `optOr a b` is `a` unless `a` is `none`. -/
def optOr {α : Type} : Option α → Option α → Option α
  | some v, _ => some v
  | none, b => b

/-- The value at the last occurrence of a key, used to describe the
net effect of replaying an entry list over an object. -/
def lastProp {α : Type} : Doc α → String → Option α
  | [], _ => none
  | (a, v) :: t, k => optOr (lastProp t k) (if k = a then some v else none)

/-- Overwrite, in place, every entry carrying the given key (a well-formed
object has at most one such entry). -/
def replaceProp {α : Type} : Doc α → String → α → Doc α
  | [], _, _ => []
  | (a, w) :: t, k, v =>
      (if a = k then (k, v) else (a, w)) :: replaceProp t k v

/-- JavaScript property assignment `o[k] = v` on an object represented as
an entry list: if the key is present its entry is overwritten in place,
otherwise the entry is appended at the end.  This is exactly how object
spread adds one property. -/
def objInsert {α : Type} (o : Doc α) (k : String) (v : α) : Doc α :=
  if o.any (fun p => p.1 = k) then replaceProp o k v
  else o ++ [(k, v)]

/-- The object spread `{ ...o, ...u }` of the source's merge
(`const mergedData = { ...localData, ...cloudData }`, part_001 line 443):
every entry of `u` is assigned onto a copy of `o`, left to right. -/
def mergeDocs {α : Type} (o u : Doc α) : Doc α :=
  u.foldl (fun acc p => objInsert acc p.1 p.2) o

section MergeLemmas

variable {α : Type}

theorem optOr_none_right (a : Option α) : optOr a none = a := by
  cases a <;> rfl

theorem optOr_assoc (a b c : Option α) :
    optOr (optOr a b) c = optOr a (optOr b c) := by
  cases a <;> rfl

theorem optOr_self_absorb (a b : Option α) :
    optOr a (optOr a b) = optOr a b := by
  cases a <;> rfl

theorem getProp_append (s t : Doc α) (k : String) :
    getProp (s ++ t) k = optOr (getProp s k) (getProp t k) := by
  induction s with
  | nil => rfl
  | cons p s ih =>
      obtain ⟨a, v⟩ := p
      simp only [List.cons_append, getProp]
      by_cases h : k = a
      · simp [h, optOr]
      · simp [h, ih]

theorem getProp_eq_none_of_not_any (o : Doc α) (k : String)
    (h : o.any (fun p => p.1 = k) = false) : getProp o k = none := by
  induction o with
  | nil => rfl
  | cons p t ih =>
      obtain ⟨a, v⟩ := p
      simp only [List.any_cons, Bool.or_eq_false_iff] at h
      simp only [getProp]
      have ha : ¬ k = a := by
        intro hk
        subst hk
        simp at h
      simp [ha, ih h.2]

theorem getProp_replaceProp_ne (o : Doc α) (k q : String) (v : α)
    (h : ¬ q = k) :
    getProp (replaceProp o k v) q = getProp o q := by
  induction o with
  | nil => rfl
  | cons p t ih =>
      obtain ⟨a, w⟩ := p
      simp only [replaceProp]
      split_ifs with ha
      · simp [getProp, h, ih, ha]
      · simp [getProp, ih]

theorem getProp_replaceProp_eq (o : Doc α) (k : String) (v : α)
    (h : o.any (fun p => p.1 = k) = true) :
    getProp (replaceProp o k v) k = some v := by
  induction o with
  | nil => simp at h
  | cons p t ih =>
      obtain ⟨a, w⟩ := p
      simp only [replaceProp]
      split_ifs with ha
      · simp [getProp]
      · have h' : (t.any fun p => p.1 = k) = true := by
          simp only [List.any_cons] at h
          simpa [ha] using h
        simp [getProp, Ne.symm ha, ih h']

/-- Reading after a property assignment: the assigned key now holds the
assigned value, every other key is untouched. -/
theorem getProp_objInsert (o : Doc α) (a k : String) (v : α) :
    getProp (objInsert o a v) k =
      if k = a then some v else getProp o k := by
  unfold objInsert
  by_cases hany : o.any (fun p => p.1 = a) = true
  · rw [if_pos hany]
    by_cases hk : k = a
    · rw [if_pos hk, hk, getProp_replaceProp_eq o a v hany]
    · rw [if_neg hk, getProp_replaceProp_ne o a k v hk]
  · simp only [Bool.not_eq_true] at hany
    rw [if_neg (by simp [hany]), getProp_append]
    by_cases hk : k = a
    · rw [if_pos hk, hk, getProp_eq_none_of_not_any o a hany]
      simp [getProp, optOr]
    · rw [if_neg hk]
      have hone : getProp [(a, v)] k = none := by simp [getProp, hk]
      rw [hone, optOr_none_right]

/-- Reading a merged object: the remote (second) argument wins wherever
it has the key (its last occurrence, which for a well-formed object is
its only one), and the local value shows through everywhere else. -/
theorem getProp_mergeDocs (u o : Doc α) (k : String) :
    getProp (mergeDocs o u) k = optOr (lastProp u k) (getProp o k) := by
  induction u generalizing o with
  | nil => simp [mergeDocs, lastProp, optOr]
  | cons p t ih =>
      obtain ⟨a, v⟩ := p
      show getProp (mergeDocs (objInsert o a v) t) k = _
      rw [ih, getProp_objInsert, lastProp, optOr_assoc]
      by_cases hk : k = a <;> simp [hk, optOr]

theorem lastProp_eq_none_of_not_mem (u : Doc α) (k : String)
    (h : k ∉ u.map Prod.fst) : lastProp u k = none := by
  induction u with
  | nil => rfl
  | cons p t ih =>
      obtain ⟨a, v⟩ := p
      simp only [List.map_cons, List.mem_cons] at h
      push_neg at h
      simp [lastProp, ih h.2, optOr, fun hh => h.1 hh]

/-- For a well-formed object the last occurrence of a key is its only
occurrence, so `lastProp` coincides with property read. -/
theorem lastProp_eq_getProp (u : Doc α) (h : keysNodup u) (k : String) :
    lastProp u k = getProp u k := by
  induction u with
  | nil => rfl
  | cons p t ih =>
      obtain ⟨a, v⟩ := p
      simp only [keysNodup, List.map_cons, List.nodup_cons] at h
      by_cases hk : k = a
      · subst hk
        rw [lastProp, lastProp_eq_none_of_not_mem t k h.1]
        simp [optOr, getProp]
      · simp [lastProp, ih h.2, getProp, hk, optOr_none_right]

theorem docKeys_replaceProp (o : Doc α) (k : String) (v : α) :
    docKeys (replaceProp o k v) = docKeys o := by
  induction o with
  | nil => rfl
  | cons p t ih =>
      obtain ⟨a, w⟩ := p
      simp only [replaceProp]
      split_ifs with ha
      · unfold docKeys at ih ⊢
        simp [ha, ih]
      · unfold docKeys at ih ⊢
        simp [ih]

theorem mem_docKeys_objInsert_self (o : Doc α) (k : String) (v : α) :
    k ∈ docKeys (objInsert o k v) := by
  unfold objInsert
  by_cases hany : (o.any fun p => p.1 = k) = true
  · rw [if_pos hany, docKeys_replaceProp]
    rcases List.any_eq_true.mp hany with ⟨p, hp, hpk⟩
    simp only [decide_eq_true_eq] at hpk
    exact List.mem_map.mpr ⟨p, hp, hpk⟩
  · rw [if_neg hany]
    unfold docKeys
    rw [List.map_append]
    simp

theorem mem_docKeys_objInsert_of_mem (o : Doc α) (a k : String) (v : α)
    (h : k ∈ docKeys o) : k ∈ docKeys (objInsert o a v) := by
  unfold objInsert
  by_cases hany : (o.any fun p => p.1 = a) = true
  · rw [if_pos hany, docKeys_replaceProp]
    exact h
  · rw [if_neg hany]
    unfold docKeys at h ⊢
    rw [List.map_append]
    exact List.mem_append_left _ h

theorem mergeDocs_mem_keys (u : Doc α) (o : Doc α) (k : String)
    (h : k ∈ docKeys o) : k ∈ docKeys (mergeDocs o u) := by
  induction u generalizing o with
  | nil => exact h
  | cons p t ih =>
      obtain ⟨a, w⟩ := p
      exact ih (objInsert o a w) (mem_docKeys_objInsert_of_mem o a k w h)

theorem replaceProp_val (o : Doc α) (k : String) (v : α) :
    ∀ p ∈ replaceProp o k v, p.1 = k → p.2 = v := by
  induction o with
  | nil =>
      intro p hp
      simp [replaceProp] at hp
  | cons q t ih =>
      obtain ⟨a, w⟩ := q
      intro p hp hpk
      simp only [replaceProp] at hp
      rcases List.mem_cons.mp hp with h1 | h1
      · by_cases ha : a = k
        · rw [if_pos ha] at h1
          rw [h1]
        · rw [if_neg ha] at h1
          rw [h1] at hpk
          exact absurd hpk ha
      · exact ih p h1 hpk

theorem objInsert_val (o : Doc α) (k : String) (v : α) :
    ∀ p ∈ objInsert o k v, p.1 = k → p.2 = v := by
  unfold objInsert
  by_cases hany : (o.any fun p => p.1 = k) = true
  · rw [if_pos hany]
    exact replaceProp_val o k v
  · rw [if_neg hany]
    intro p hp hpk
    rcases List.mem_append.mp hp with h1 | h1
    · exact absurd (List.any_eq_true.mpr ⟨p, h1, by simp [hpk]⟩) hany
    · rw [List.mem_singleton.mp h1]

theorem replaceProp_eq_self (o : Doc α) (k : String) (v : α)
    (h : ∀ p ∈ o, p.1 = k → p.2 = v) : replaceProp o k v = o := by
  induction o with
  | nil => rfl
  | cons q t ih =>
      obtain ⟨a, w⟩ := q
      have ht : replaceProp t k v = t :=
        ih fun p hp => h p (List.mem_cons_of_mem _ hp)
      simp only [replaceProp]
      split_ifs with ha
      · have hw : w = v := h (a, w) (List.mem_cons_self _ _) ha
        rw [ht, ha, hw]
      · rw [ht]

/-- Assigning a key that is already present with the assigned value is the
identity: the in-place overwrite changes nothing. -/
theorem objInsert_eq_self (o : Doc α) (k : String) (v : α)
    (hmem : k ∈ docKeys o) (h : ∀ p ∈ o, p.1 = k → p.2 = v) :
    objInsert o k v = o := by
  have hany : (o.any fun p => p.1 = k) = true := by
    rcases List.mem_map.mp hmem with ⟨p, hp, hpk⟩
    exact List.any_eq_true.mpr ⟨p, hp, by simp [hpk]⟩
  unfold objInsert
  rw [if_pos hany]
  exact replaceProp_eq_self o k v h

theorem replaceProp_preserve (o : Doc α) (b : String) (w : α)
    (k : String) (v : α) (hne : ¬ k = b)
    (h : ∀ p ∈ o, p.1 = k → p.2 = v) :
    ∀ p ∈ replaceProp o b w, p.1 = k → p.2 = v := by
  induction o with
  | nil =>
      intro p hp
      simp [replaceProp] at hp
  | cons q t ih =>
      obtain ⟨a, u⟩ := q
      intro p hp hpk
      simp only [replaceProp] at hp
      rcases List.mem_cons.mp hp with h1 | h1
      · by_cases ha : a = b
        · rw [if_pos ha] at h1
          rw [h1] at hpk
          exact absurd hpk.symm hne
        · rw [if_neg ha] at h1
          subst h1
          exact h (a, u) (List.mem_cons_self _ _) hpk
      · exact ih (fun p hp => h p (List.mem_cons_of_mem _ hp)) p h1 hpk

theorem objInsert_preserve (o : Doc α) (b : String) (w : α)
    (k : String) (v : α) (hne : ¬ k = b)
    (h : ∀ p ∈ o, p.1 = k → p.2 = v) :
    ∀ p ∈ objInsert o b w, p.1 = k → p.2 = v := by
  unfold objInsert
  by_cases hany : (o.any fun p => p.1 = b) = true
  · rw [if_pos hany]
    exact replaceProp_preserve o b w k v hne h
  · rw [if_neg hany]
    intro p hp hpk
    rcases List.mem_append.mp hp with h1 | h1
    · exact h p h1 hpk
    · rw [List.mem_singleton.mp h1] at hpk
      exact absurd hpk.symm hne

theorem mergeDocs_preserve (u : Doc α) (o : Doc α) (k : String) (v : α)
    (hk : k ∉ docKeys u)
    (h : ∀ p ∈ o, p.1 = k → p.2 = v) :
    ∀ p ∈ mergeDocs o u, p.1 = k → p.2 = v := by
  induction u generalizing o with
  | nil => exact h
  | cons q t ih =>
      obtain ⟨b, w⟩ := q
      have hkb : ¬ k = b := by
        intro hkb
        apply hk
        rw [hkb]
        simp [docKeys]
      have hkt : k ∉ docKeys t := by
        intro hmem
        apply hk
        unfold docKeys at hmem ⊢
        rw [List.map_cons]
        exact List.mem_cons_of_mem _ hmem
      exact ih (objInsert o b w) hkt (objInsert_preserve o b w k v hkb h)

/-- Replaying the remote entries over an already-merged object changes
nothing: every remote key is already present carrying its remote value,
so each assignment is an in-place overwrite with the same value. -/
theorem mergeDocs_idem_aux (r : Doc α) :
    keysNodup r → ∀ l : Doc α, mergeDocs (mergeDocs l r) r = mergeDocs l r := by
  induction r with
  | nil =>
      intro _ l
      rfl
  | cons q t ih =>
      obtain ⟨a, v⟩ := q
      intro h l
      have hnd : keysNodup t := by
        unfold keysNodup at h ⊢
        rw [List.map_cons, List.nodup_cons] at h
        exact h.2
      have hat : a ∉ docKeys t := by
        unfold keysNodup at h
        rw [List.map_cons, List.nodup_cons] at h
        exact h.1
      show mergeDocs (objInsert (mergeDocs (objInsert l a v) t) a v) t
          = mergeDocs (objInsert l a v) t
      have hins : objInsert (mergeDocs (objInsert l a v) t) a v
          = mergeDocs (objInsert l a v) t :=
        objInsert_eq_self _ a v
          (mergeDocs_mem_keys t (objInsert l a v) a
            (mem_docKeys_objInsert_self l a v))
          (mergeDocs_preserve t (objInsert l a v) a v hat
            (objInsert_val l a v))
      rw [hins]
      exact ih hnd (objInsert l a v)

end MergeLemmas

/-! ## The CloudStorageSync class

State, network oracle and request trace for the folder-support variant of
`CloudStorageSync` (src/unnamed/part_001, lines 1-473).  Each adapter
method becomes a pure function `Net α → SyncState α → ...` returning the
result (`Except.error` for a thrown `Error`), the new object state and
the list of HTTP requests issued, in order. -/

/-- The provider identifiers accepted by `initialize`. -/
inductive Provider where
  | box
  | onedrive
  | gdrive
  deriving DecidableEq

/-- An HTTP response: status code plus the already-parsed JSON body the
surrounding code reads from it. -/
structure HResp (β : Type) where
  status : Nat
  body : β

/-- JavaScript `response.ok`: status in the range 200-299. -/
def HResp.isOk {β : Type} (r : HResp β) : Bool :=
  200 ≤ r.status && r.status ≤ 299

/-- One entry of Box's folder-items listing; `itemType` models the JSON
field `type` read by `findBoxFile`. -/
structure BoxItem where
  id : String
  name : String
  itemType : String

/-- The network oracle: the response each endpoint would give.  Requests
differing only in the bearer token or payload are not distinguished, since
the class never branches on those. -/
structure Net (α : Type) where
  boxSearchFolders : HResp (List String)
  boxCreateFolder : HResp String
  boxListItems : String → HResp (List BoxItem)
  boxUpload : Option String → HResp Unit
  boxFileContent : String → HResp (Doc α)
  odGet : String → HResp (Doc α)
  odPut : String → HResp Unit
  gdSearchFolders : HResp (List String)
  gdCreateFolder : HResp String
  gdFindFile : String → String → HResp (List String)
  gdUpload : Option String → HResp Unit
  gdFileContent : String → HResp (Doc α)

/-- An HTTP request issued by the class, with the arguments that select
the URL/method and, for uploads, the serialized payload. -/
inductive Req (α : Type) where
  | boxSearchFolders
  | boxCreateFolder
  | boxListItems (folderId : String)
  | boxUploadNew (data : Doc α)
  | boxUploadExisting (fileId : String) (data : Doc α)
  | boxFileContent (fileId : String)
  | odGet (fname : String)
  | odPut (fname : String) (data : Doc α)
  | gdSearchFolders
  | gdCreateFolder
  | gdFindFile (fname : String) (folderId : String)
  | gdUploadNew (data : Doc α)
  | gdUploadExisting (fileId : String) (data : Doc α)
  | gdFileContent (fileId : String)
  deriving DecidableEq

/-- The mutable state of a `CloudStorageSync` instance together with the
localStorage slots it touches.  `storedToken` is the per-provider
localStorage credential; `storedExpiry` is the localStorage slot where an
absolute token-expiry instant would live (the class never writes one, cf.
the `google_calendar_token_expiry` key of the separate GoogleCalendar
module); `urlHash` is `window.location.hash` without the leading `#`. -/
structure SyncState (α : Type) where
  provider : Option Provider
  accessToken : Option String
  storedToken : Option String
  storedExpiry : Option Nat
  folderId : Option String
  localData : Option (Doc α)
  localSettings : Option (Doc α)
  urlHash : String

/-- JavaScript truthiness of a nullable string: null and the empty string
are falsy. -/
def truthy : Option String → Bool
  | none => false
  | some s => s != ""

/-- `this.fileName` from the constructor. -/
def fileName : String := "planner-data.json"

/-- `this.settingsFileName` from the constructor. -/
def settingsFileName : String := "planner-settings.json"

/-- `this.folderName` from the constructor. -/
def folderName : String := "Digital Planner"

/-- Result of one effectful method: thrown error or value, new state,
issued requests. -/
abbrev EStep (α ρ : Type) := Except String ρ × SyncState α × List (Req α)

/-- The search-or-create body of `ensureBoxFolder` (lines 156-193): query
the search endpoint; on a usable hit cache `entries[0].id`; otherwise
create the folder, throwing `Failed to create folder in Box` when the
create call fails. -/
def ensureBoxFolderFetch {α : Type} (net : Net α) (st : SyncState α) :
    EStep α String :=
  let sresp := net.boxSearchFolders
  match (if sresp.isOk then sresp.body.head? else none) with
  | some fid =>
      (Except.ok fid, { st with folderId := some fid }, [Req.boxSearchFolders])
  | none =>
      let cresp := net.boxCreateFolder
      if cresp.isOk then
        (Except.ok cresp.body, { st with folderId := some cresp.body },
          [Req.boxSearchFolders, Req.boxCreateFolder])
      else
        (Except.error "Failed to create folder in Box", st,
          [Req.boxSearchFolders, Req.boxCreateFolder])

/-- `ensureBoxFolder` (line 153): `if (this.folderId) return this.folderId;`
then the search-or-create path. -/
def ensureBoxFolder {α : Type} (net : Net α) (st : SyncState α) :
    EStep α String :=
  if truthy st.folderId then (Except.ok (st.folderId.getD ""), st, [])
  else ensureBoxFolderFetch net st

/-- `findBoxFile` (lines 252-266): list the folder items; a non-ok
response yields null; otherwise the id of the entry whose name matches and
whose type is `file`. -/
def findBoxFile {α : Type} (net : Net α) (fname fid : String) :
    Option String × List (Req α) :=
  let resp := net.boxListItems fid
  if resp.isOk then
    ((resp.body.find? fun it => it.name == fname && it.itemType == "file").map
        BoxItem.id,
      [Req.boxListItems fid])
  else (none, [Req.boxListItems fid])

/-- `uploadToBox` (lines 196-229): ensure the folder, look the file up,
POST to the update URL when a file id was found (JS truthiness) and to the
create URL otherwise; a non-ok response throws `Failed to upload to Box`. -/
def uploadToBox {α : Type} (net : Net α) (st : SyncState α) (data : Doc α)
    (fname : String) : EStep α Unit :=
  match ensureBoxFolder net st with
  | (Except.error e, st₁, t₁) => (Except.error e, st₁, t₁)
  | (Except.ok folderId, st₁, t₁) =>
      let found := findBoxFile net fname folderId
      let target := if truthy found.1 then found.1 else none
      let req : Req α :=
        match target with
        | some fid => Req.boxUploadExisting fid data
        | none => Req.boxUploadNew data
      let uresp := net.boxUpload target
      if uresp.isOk then (Except.ok (), st₁, t₁ ++ found.2 ++ [req])
      else (Except.error "Failed to upload to Box", st₁, t₁ ++ found.2 ++ [req])

/-- `downloadFromBox` (lines 231-250): ensure the folder, look the file
up, return null when it is absent, fetch its content otherwise; a non-ok
content response (404 included) throws `Failed to download from Box`. -/
def downloadFromBox {α : Type} (net : Net α) (st : SyncState α)
    (fname : String) : EStep α (Option (Doc α)) :=
  match ensureBoxFolder net st with
  | (Except.error e, st₁, t₁) => (Except.error e, st₁, t₁)
  | (Except.ok folderId, st₁, t₁) =>
      let found := findBoxFile net fname folderId
      match (if truthy found.1 then found.1 else none) with
      | none => (Except.ok none, st₁, t₁ ++ found.2)
      | some fid =>
          let resp := net.boxFileContent fid
          if resp.isOk then
            (Except.ok (some resp.body), st₁,
              t₁ ++ found.2 ++ [Req.boxFileContent fid])
          else
            (Except.error "Failed to download from Box", st₁,
              t₁ ++ found.2 ++ [Req.boxFileContent fid])

/-- `uploadToOneDrive` (lines 271-291): a single path-addressed PUT; a
non-ok response throws `Failed to upload to OneDrive`. -/
def uploadToOneDrive {α : Type} (net : Net α) (st : SyncState α)
    (data : Doc α) (fname : String) : EStep α Unit :=
  let resp := net.odPut fname
  if resp.isOk then (Except.ok (), st, [Req.odPut fname data])
  else (Except.error "Failed to upload to OneDrive", st, [Req.odPut fname data])

/-- `downloadFromOneDrive` (lines 293-309): a 404 yields null, any other
non-ok response throws `Failed to download from OneDrive`. -/
def downloadFromOneDrive {α : Type} (net : Net α) (st : SyncState α)
    (fname : String) : EStep α (Option (Doc α)) :=
  let resp := net.odGet fname
  if resp.status == 404 then (Except.ok none, st, [Req.odGet fname])
  else if !resp.isOk then
    (Except.error "Failed to download from OneDrive", st, [Req.odGet fname])
  else (Except.ok (some resp.body), st, [Req.odGet fname])

/-- The search-or-create body of `ensureGDriveFolder` (lines 317-355),
structurally identical to the Box one. -/
def ensureGDriveFolderFetch {α : Type} (net : Net α) (st : SyncState α) :
    EStep α String :=
  let sresp := net.gdSearchFolders
  match (if sresp.isOk then sresp.body.head? else none) with
  | some fid =>
      (Except.ok fid, { st with folderId := some fid }, [Req.gdSearchFolders])
  | none =>
      let cresp := net.gdCreateFolder
      if cresp.isOk then
        (Except.ok cresp.body, { st with folderId := some cresp.body },
          [Req.gdSearchFolders, Req.gdCreateFolder])
      else
        (Except.error "Failed to create folder in Google Drive", st,
          [Req.gdSearchFolders, Req.gdCreateFolder])

/-- `ensureGDriveFolder` (line 314). -/
def ensureGDriveFolder {α : Type} (net : Net α) (st : SyncState α) :
    EStep α String :=
  if truthy st.folderId then (Except.ok (st.folderId.getD ""), st, [])
  else ensureGDriveFolderFetch net st

/-- `findGDriveFile` (lines 412-425): `data.files?.[0]?.id || null`, so a
non-ok response, an empty listing and an empty id string all collapse to
null. -/
def findGDriveFile {α : Type} (net : Net α) (fname fid : String) :
    Option String × List (Req α) :=
  let resp := net.gdFindFile fname fid
  if resp.isOk then
    (match resp.body.head? with
      | some i => if i == "" then none else some i
      | none => none,
      [Req.gdFindFile fname fid])
  else (none, [Req.gdFindFile fname fid])

/-- `uploadToGDrive` (lines 358-391): PATCH an existing file id, POST a
new one; a non-ok response throws `Failed to upload to Google Drive`. -/
def uploadToGDrive {α : Type} (net : Net α) (st : SyncState α)
    (data : Doc α) (fname : String) : EStep α Unit :=
  match ensureGDriveFolder net st with
  | (Except.error e, st₁, t₁) => (Except.error e, st₁, t₁)
  | (Except.ok folderId, st₁, t₁) =>
      let found := findGDriveFile net fname folderId
      let req : Req α :=
        match found.1 with
        | some fid => Req.gdUploadExisting fid data
        | none => Req.gdUploadNew data
      let uresp := net.gdUpload found.1
      if uresp.isOk then (Except.ok (), st₁, t₁ ++ found.2 ++ [req])
      else
        (Except.error "Failed to upload to Google Drive", st₁,
          t₁ ++ found.2 ++ [req])

/-- `downloadFromGDrive` (lines 393-410): null when the file is absent;
a non-ok content response (404 included) throws
`Failed to download from Google Drive`. -/
def downloadFromGDrive {α : Type} (net : Net α) (st : SyncState α)
    (fname : String) : EStep α (Option (Doc α)) :=
  match ensureGDriveFolder net st with
  | (Except.error e, st₁, t₁) => (Except.error e, st₁, t₁)
  | (Except.ok folderId, st₁, t₁) =>
      let found := findGDriveFile net fname folderId
      match found.1 with
      | none => (Except.ok none, st₁, t₁ ++ found.2)
      | some fid =>
          let resp := net.gdFileContent fid
          if resp.isOk then
            (Except.ok (some resp.body), st₁,
              t₁ ++ found.2 ++ [Req.gdFileContent fid])
          else
            (Except.error "Failed to download from Google Drive", st₁,
              t₁ ++ found.2 ++ [Req.gdFileContent fid])

/-- `uploadData` (lines 111-124): choose the logical file name, dispatch
on the provider, throw `No provider configured` when none is set. -/
def uploadData {α : Type} (net : Net α) (st : SyncState α) (data : Doc α)
    (isSettings : Bool) : EStep α Unit :=
  let fname := if isSettings then settingsFileName else fileName
  match st.provider with
  | some Provider.box => uploadToBox net st data fname
  | some Provider.onedrive => uploadToOneDrive net st data fname
  | some Provider.gdrive => uploadToGDrive net st data fname
  | none => (Except.error "No provider configured", st, [])

/-- `downloadData` (lines 129-142). -/
def downloadData {α : Type} (net : Net α) (st : SyncState α)
    (isSettings : Bool) : EStep α (Option (Doc α)) :=
  let fname := if isSettings then settingsFileName else fileName
  match st.provider with
  | some Provider.box => downloadFromBox net st fname
  | some Provider.onedrive => downloadFromOneDrive net st fname
  | some Provider.gdrive => downloadFromGDrive net st fname
  | none => (Except.error "No provider configured", st, [])

/-- The value `syncData` resolves with: `{success:true, data}` or
`{success:false, error}`. -/
inductive SyncResult (α : Type) where
  | ok (data : Doc α)
  | failed (error : String)
  deriving DecidableEq

/-- `syncData` (lines 430-460): download document and settings, read the
local copies (`|| '{}'` gives the empty object), shallow-merge with the
cloud value spread last (spreading null adds nothing, hence `getD []`),
persist the merged values locally, upload both, and catch any thrown
error into a `{success:false}` result. -/
def syncData {α : Type} (net : Net α) (st : SyncState α) :
    SyncResult α × SyncState α × List (Req α) :=
  match downloadData net st false with
  | (Except.error e, st₁, t₁) => (SyncResult.failed e, st₁, t₁)
  | (Except.ok cloudData, st₁, t₁) =>
      match downloadData net st₁ true with
      | (Except.error e, st₂, t₂) => (SyncResult.failed e, st₂, t₁ ++ t₂)
      | (Except.ok cloudSettings, st₂, t₂) =>
          let mergedData := mergeDocs (st₂.localData.getD []) (cloudData.getD [])
          let mergedSettings :=
            mergeDocs (st₂.localSettings.getD []) (cloudSettings.getD [])
          let st₃ := { st₂ with localData := some mergedData,
                                localSettings := some mergedSettings }
          match uploadData net st₃ mergedData false with
          | (Except.error e, st₄, t₃) =>
              (SyncResult.failed e, st₄, t₁ ++ t₂ ++ t₃)
          | (Except.ok _, st₄, t₃) =>
              match uploadData net st₄ mergedSettings true with
              | (Except.error e, st₅, t₄) =>
                  (SyncResult.failed e, st₅, t₁ ++ t₂ ++ t₃ ++ t₄)
              | (Except.ok _, st₅, t₄) =>
                  (SyncResult.ok mergedData, st₅, t₁ ++ t₂ ++ t₃ ++ t₄)

/-- `disconnect` (lines 465-469): drop the stored credential, the
in-memory token and the cached folder id. -/
def disconnect {α : Type} (st : SyncState α) : SyncState α :=
  { st with storedToken := none, accessToken := none, folderId := none }

/-- Split a character list at every occurrence of the separator. -/
def splitOnChar (c : Char) : List Char → List (List Char)
  | [] => [[]]
  | x :: xs =>
      match splitOnChar c xs with
      | [] => if x = c then [[], []] else [[x]]
      | h :: t => if x = c then [] :: h :: t else (x :: h) :: t

/-- `new URLSearchParams(hash)`: split on `&`, each part's key is what
precedes the first `=` and its value what follows it (empty when there is
no `=`). -/
def parseFragment (hash : String) : List (String × String) :=
  (splitOnChar '&' hash.toList).map fun part =>
    (String.mk (part.takeWhile fun ch => ch != '='),
      String.mk ((part.dropWhile fun ch => ch != '=').drop 1))

/-- `handleAuthCallback` (lines 91-106): read `access_token` from the URL
fragment; when it is truthy, keep it in memory, persist it and strip the
fragment from the visible URL, returning true; otherwise return false and
touch nothing.  No `expires_in` value is read and no expiry is stored. -/
def handleAuthCallback {α : Type} (st : SyncState α) : Bool × SyncState α :=
  let params := parseFragment st.urlHash
  let accessToken := getProp params "access_token"
  if truthy accessToken then
    (true, { st with accessToken := accessToken, storedToken := accessToken,
                     urlHash := "" })
  else (false, st)

/-- Folder-creation requests in a trace. -/
def isCreateFolderReq {α : Type} : Req α → Bool
  | Req.boxCreateFolder => true
  | Req.gdCreateFolder => true
  | _ => false

/-- Number of folder-creation calls in a trace. -/
def createFolderCount {α : Type} (t : List (Req α)) : Nat :=
  t.countP fun r => isCreateFolderReq r

/-- Update-in-place upload requests in a trace. -/
def isUpdateUploadReq {α : Type} : Req α → Bool
  | Req.boxUploadExisting _ _ => true
  | Req.gdUploadExisting _ _ => true
  | _ => false

/-- Number of update-in-place upload calls in a trace. -/
def updateUploadCount {α : Type} (t : List (Req α)) : Nat :=
  t.countP fun r => isUpdateUploadReq r

/-! ## Concrete test environments -/

/-- A configurable concrete network: folder searches answer `200` with
`sf`, folder creation answers `cs` with id `F`, item listings answer `ls`
with `items` (for Google Drive, with the ids `sf`), a create upload
answers `un` and an update upload `ue`, content fetches answer `cf` with
the document `{r:9}`, and the OneDrive content GET answers `od`. -/
def mkNet (sf : List String) (cs ls : Nat) (items : List BoxItem)
    (un ue cf od : Nat) : Net Nat where
  boxSearchFolders := ⟨200, sf⟩
  boxCreateFolder := ⟨cs, "F"⟩
  boxListItems := fun _ => ⟨ls, items⟩
  boxUpload := fun t => ⟨if t.isSome then ue else un, ()⟩
  boxFileContent := fun _ => ⟨cf, [("r", 9)]⟩
  odGet := fun _ => ⟨od, [("r", 9)]⟩
  odPut := fun _ => ⟨un, ()⟩
  gdSearchFolders := ⟨200, sf⟩
  gdCreateFolder := ⟨cs, "F"⟩
  gdFindFile := fun _ _ => ⟨ls, sf⟩
  gdUpload := fun t => ⟨if t.isSome then ue else un, ()⟩
  gdFileContent := fun _ => ⟨cf, [("r", 9)]⟩

/-- A Box-connected instance with a saved token, no cached folder and
local documents `{a:1}` and `{s:2}`. -/
def baseState : SyncState Nat where
  provider := some Provider.box
  accessToken := some "tok"
  storedToken := some "tok"
  storedExpiry := none
  folderId := none
  localData := some [("a", 1)]
  localSettings := some [("s", 2)]
  urlHash := ""

/-- The remote of a first-ever sync: the folder search succeeds with no
hit, folder creation succeeds with id `f`, every listing is empty and
every upload succeeds. -/
def firstSyncNet (α : Type) (f : String) : Net α where
  boxSearchFolders := ⟨200, []⟩
  boxCreateFolder := ⟨201, f⟩
  boxListItems := fun _ => ⟨200, []⟩
  boxUpload := fun _ => ⟨201, ()⟩
  boxFileContent := fun _ => ⟨200, []⟩
  odGet := fun _ => ⟨404, []⟩
  odPut := fun _ => ⟨201, ()⟩
  gdSearchFolders := ⟨200, []⟩
  gdCreateFolder := ⟨201, f⟩
  gdFindFile := fun _ _ => ⟨200, []⟩
  gdUpload := fun _ => ⟨201, ()⟩
  gdFileContent := fun _ => ⟨200, []⟩

/-! ## Structural lemmas about the adapters -/

/-- A successful `ensureBoxFolder` always leaves the returned identifier
in `this.folderId`. -/
theorem ensureBoxFolder_ok_folderId {α : Type} {net : Net α}
    {st st₁ : SyncState α} {f : String} {t₁ : List (Req α)}
    (h : ensureBoxFolder net st = (Except.ok f, st₁, t₁)) :
    st₁.folderId = some f := by
  unfold ensureBoxFolder at h
  split_ifs at h with hT
  · simp only [Prod.mk.injEq, Except.ok.injEq] at h
    obtain ⟨h1, h2, h3⟩ := h
    rw [← h2]
    cases hfold : st.folderId with
    | none =>
        rw [hfold] at hT
        simp [truthy] at hT
    | some s =>
        rw [hfold] at h1
        simp only [Option.getD_some] at h1
        rw [h1]
  · simp only [ensureBoxFolderFetch] at h
    split at h
    · simp only [Prod.mk.injEq, Except.ok.injEq] at h
      obtain ⟨h1, h2, h3⟩ := h
      rw [← h2, h1]
    · split_ifs at h with hc
      · simp only [Prod.mk.injEq, Except.ok.injEq] at h
        obtain ⟨h1, h2, h3⟩ := h
        rw [← h2, h1]
      · simp at h

/-- A successful `ensureGDriveFolder` always leaves the returned
identifier in `this.folderId`. -/
theorem ensureGDriveFolder_ok_folderId {α : Type} {net : Net α}
    {st st₁ : SyncState α} {f : String} {t₁ : List (Req α)}
    (h : ensureGDriveFolder net st = (Except.ok f, st₁, t₁)) :
    st₁.folderId = some f := by
  unfold ensureGDriveFolder at h
  split_ifs at h with hT
  · simp only [Prod.mk.injEq, Except.ok.injEq] at h
    obtain ⟨h1, h2, h3⟩ := h
    rw [← h2]
    cases hfold : st.folderId with
    | none =>
        rw [hfold] at hT
        simp [truthy] at hT
    | some s =>
        rw [hfold] at h1
        simp only [Option.getD_some] at h1
        rw [h1]
  · simp only [ensureGDriveFolderFetch] at h
    split at h
    · simp only [Prod.mk.injEq, Except.ok.injEq] at h
      obtain ⟨h1, h2, h3⟩ := h
      rw [← h2, h1]
    · split_ifs at h with hc
      · simp only [Prod.mk.injEq, Except.ok.injEq] at h
        obtain ⟨h1, h2, h3⟩ := h
        rw [← h2, h1]
      · simp at h

/-- One `ensureBoxFolder` run issues at most one folder-creation call. -/
theorem ensureBoxFolder_createCount {α : Type} (net : Net α)
    (st : SyncState α) :
    createFolderCount (ensureBoxFolder net st).2.2 ≤ 1 := by
  simp only [ensureBoxFolder, ensureBoxFolderFetch]
  split_ifs <;> (try split) <;>
    simp [createFolderCount, List.countP_cons, List.countP_nil,
      isCreateFolderReq]

/-- One `ensureGDriveFolder` run issues at most one folder-creation
call. -/
theorem ensureGDriveFolder_createCount {α : Type} (net : Net α)
    (st : SyncState α) :
    createFolderCount (ensureGDriveFolder net st).2.2 ≤ 1 := by
  simp only [ensureGDriveFolder, ensureGDriveFolderFetch]
  split_ifs <;> (try split) <;>
    simp [createFolderCount, List.countP_cons, List.countP_nil,
      isCreateFolderReq]

/-! ## Claims -/

/-- Claim C1: the merge computed by `syncData` gives remote (cloud) field
values precedence over local values of the same key, preserves keys
present only locally and adopts keys present only remotely — stated as a
single read-off: every key reads as the remote value when the remote
document has the key and as the local value otherwise; and concretely,
merging local `{a:1, b:2}` with remote `{b:3, c:4}` yields
`{a:1, b:3, c:4}`. -/
theorem claim1_merge_remote_precedence :
    (∀ (α : Type) (l r : Doc α), keysNodup r →
        ∀ k, getProp (mergeDocs l r) k = optOr (getProp r k) (getProp l k))
    ∧ mergeDocs [("a", 1), ("b", 2)] ([("b", 3), ("c", 4)] : Doc Nat)
        = [("a", 1), ("b", 3), ("c", 4)] := by
  constructor
  · intro α l r h k
    rw [getProp_mergeDocs, lastProp_eq_getProp r h]
  · decide

/-- Witness for C1 at a concrete merge. -/
theorem claim1_witness :
    getProp (mergeDocs [("a", 1), ("b", 2)] ([("b", 3), ("c", 4)] : Doc Nat)) "b"
      = optOr (getProp ([("b", 3), ("c", 4)] : Doc Nat) "b")
          (getProp [("a", 1), ("b", 2)] "b") :=
  claim1_merge_remote_precedence.1 Nat [("a", 1), ("b", 2)]
    [("b", 3), ("c", 4)] (by decide) "b"

/-- Claim C7: the shallow merge used by `syncData` is idempotent in its
remote argument: merging the already-merged document with the same remote
document again changes nothing. -/
theorem claim7_merge_idempotent (α : Type) (l r : Doc α)
    (h : keysNodup r) :
    mergeDocs (mergeDocs l r) r = mergeDocs l r :=
  mergeDocs_idem_aux r h l

/-- Witness for C7 at a concrete pair of documents. -/
theorem claim7_witness :
    mergeDocs (mergeDocs [("a", 1)] [("b", 3), ("c", 4)])
        ([("b", 3), ("c", 4)] : Doc Nat)
      = mergeDocs [("a", 1)] [("b", 3), ("c", 4)] :=
  claim7_merge_idempotent Nat [("a", 1)] [("b", 3), ("c", 4)] (by decide)

/-- Claim C4: for both providers with a folder-resolution step (Box and
Google Drive), after a first `ensureFolder` call succeeds with a (cloud
provider) folder identifier — a nonempty string — the second call on the
same instance returns the memoized identifier without issuing any
request, and the two calls together issue at most one folder-creation
call. -/
theorem claim4_ensureFolder_memoized (α : Type) :
    (∀ (net : Net α) (st st₁ : SyncState α) (f : String) (t₁ : List (Req α)),
        ensureBoxFolder net st = (Except.ok f, st₁, t₁) → f ≠ "" →
        ensureBoxFolder net st₁ = (Except.ok f, st₁, []) ∧
          createFolderCount (t₁ ++ ([] : List (Req α))) ≤ 1)
    ∧ (∀ (net : Net α) (st st₁ : SyncState α) (f : String) (t₁ : List (Req α)),
        ensureGDriveFolder net st = (Except.ok f, st₁, t₁) → f ≠ "" →
        ensureGDriveFolder net st₁ = (Except.ok f, st₁, []) ∧
          createFolderCount (t₁ ++ ([] : List (Req α))) ≤ 1) := by
  constructor
  · intro net st st₁ f t₁ h hf
    have hfold := ensureBoxFolder_ok_folderId h
    constructor
    · unfold ensureBoxFolder
      rw [hfold]
      have hT : truthy (some f) = true := by
        simp [truthy, bne_iff_ne, hf]
      simp [hT]
    · have hc := ensureBoxFolder_createCount net st
      rw [h] at hc
      simpa using hc
  · intro net st st₁ f t₁ h hf
    have hfold := ensureGDriveFolder_ok_folderId h
    constructor
    · unfold ensureGDriveFolder
      rw [hfold]
      have hT : truthy (some f) = true := by
        simp [truthy, bne_iff_ne, hf]
      simp [hT]
    · have hc := ensureGDriveFolder_createCount net st
      rw [h] at hc
      simpa using hc

/-- Witness for C4: a concrete first call that searches, creates and
caches folder `F`; the second call answers from the cache. -/
theorem claim4_witness :
    ensureBoxFolder (firstSyncNet Nat "F")
        ({ baseState with folderId := some "F" })
      = (Except.ok "F", { baseState with folderId := some "F" }, []) ∧
    createFolderCount
        (([Req.boxSearchFolders, Req.boxCreateFolder] : List (Req Nat)) ++ []) ≤ 1 :=
  (claim4_ensureFolder_memoized Nat).1 (firstSyncNet Nat "F") baseState
    ({ baseState with folderId := some "F" }) "F"
    [Req.boxSearchFolders, Req.boxCreateFolder] (by rfl) (by decide)

/-- Claim C8 counterexample: on the callback fragment
`access_token=XYZ&expires_in=3600` the handler stores credential `XYZ`
and strips the fragment, but stores no expiry instant at all
(`storedExpiry` remains `none`), contradicting the claimed
"absolute expiry instant 3600 seconds in the future". -/
theorem claim8_counterexample :
    handleAuthCallback
        ({ provider := some Provider.box, accessToken := none,
           storedToken := none, storedExpiry := none, folderId := none,
           localData := none, localSettings := none,
           urlHash := "access_token=XYZ&expires_in=3600" } : SyncState Nat)
      = (true,
          { provider := some Provider.box, accessToken := some "XYZ",
            storedToken := some "XYZ", storedExpiry := none, folderId := none,
            localData := none, localSettings := none, urlHash := "" }) := by
  rfl

/-- Claim C8 amended: given the fragment
`access_token=XYZ&expires_in=3600`, the handler stores credential `XYZ`
in memory and in the persisted slot and leaves the visible URL free of
the fragment, but ignores `expires_in`: the expiry slot is left exactly
as it was, so no expiry instant is stored. -/
theorem claim8_amended (α : Type) (st : SyncState α)
    (h : st.urlHash = "access_token=XYZ&expires_in=3600") :
    handleAuthCallback st
      = (true, { st with accessToken := some "XYZ",
                         storedToken := some "XYZ", urlHash := "" }) := by
  unfold handleAuthCallback
  rw [h]
  rfl

/-- Witness for the amended C8 at a concrete state carrying a stale
expiry value, which the callback leaves untouched. -/
theorem claim8_witness :
    handleAuthCallback
        ({ provider := none, accessToken := none, storedToken := none,
           storedExpiry := some 5, folderId := none, localData := none,
           localSettings := none,
           urlHash := "access_token=XYZ&expires_in=3600" } : SyncState Nat)
      = (true,
          { provider := none, accessToken := some "XYZ",
            storedToken := some "XYZ", storedExpiry := some 5,
            folderId := none, localData := none, localSettings := none,
            urlHash := "" }) :=
  claim8_amended Nat _ rfl

/-- Claim C9 counterexample: a callback fragment carrying only
`error=access_denied` produces exactly the same outcome as a missing
fragment — `false` with the state (URL included) untouched — so no
authentication failure distinguished from the "no callback present"
outcome is surfaced. -/
theorem claim9_counterexample :
    handleAuthCallback
        ({ provider := some Provider.box, accessToken := none,
           storedToken := none, storedExpiry := none, folderId := none,
           localData := none, localSettings := none,
           urlHash := "error=access_denied" } : SyncState Nat)
      = (false,
          { provider := some Provider.box, accessToken := none,
            storedToken := none, storedExpiry := none, folderId := none,
            localData := none, localSettings := none,
            urlHash := "error=access_denied" })
    ∧ handleAuthCallback
        ({ provider := some Provider.box, accessToken := none,
           storedToken := none, storedExpiry := none, folderId := none,
           localData := none, localSettings := none,
           urlHash := "" } : SyncState Nat)
      = (false,
          { provider := some Provider.box, accessToken := none,
            storedToken := none, storedExpiry := none, folderId := none,
            localData := none, localSettings := none, urlHash := "" }) :=
  ⟨rfl, rfl⟩

/-- Claim C9 amended: any fragment without a truthy `access_token` —
a missing fragment, a malformed one, or one carrying an `error`
parameter — yields the same "not authenticated" outcome: the handler
returns `false` and changes nothing. -/
theorem claim9_amended (α : Type) (st : SyncState α)
    (h : truthy (getProp (parseFragment st.urlHash) "access_token") = false) :
    handleAuthCallback st = (false, st) := by
  unfold handleAuthCallback
  simp [h]

/-- Witness for the amended C9 at the `error=access_denied` fragment. -/
theorem claim9_witness :
    handleAuthCallback
        ({ provider := none, accessToken := none, storedToken := none,
           storedExpiry := none, folderId := none, localData := none,
           localSettings := none,
           urlHash := "error=access_denied" } : SyncState Nat)
      = (false,
          { provider := none, accessToken := none, storedToken := none,
            storedExpiry := none, folderId := none, localData := none,
            localSettings := none, urlHash := "error=access_denied" }) :=
  claim9_amended Nat _ (by decide)

/-- `ensureBoxFolder` only ever writes `folderId`: tokens and local
documents are untouched. -/
theorem ensureBoxFolder_preserves {α : Type} (net : Net α)
    (st : SyncState α) :
    ((ensureBoxFolder net st).2.1).storedToken = st.storedToken
    ∧ ((ensureBoxFolder net st).2.1).accessToken = st.accessToken
    ∧ ((ensureBoxFolder net st).2.1).localData = st.localData
    ∧ ((ensureBoxFolder net st).2.1).localSettings = st.localSettings := by
  simp only [ensureBoxFolder, ensureBoxFolderFetch]
  split_ifs <;> (try split) <;> exact ⟨rfl, rfl, rfl, rfl⟩

/-- `ensureGDriveFolder` only ever writes `folderId`. -/
theorem ensureGDriveFolder_preserves {α : Type} (net : Net α)
    (st : SyncState α) :
    ((ensureGDriveFolder net st).2.1).storedToken = st.storedToken
    ∧ ((ensureGDriveFolder net st).2.1).accessToken = st.accessToken
    ∧ ((ensureGDriveFolder net st).2.1).localData = st.localData
    ∧ ((ensureGDriveFolder net st).2.1).localSettings = st.localSettings := by
  simp only [ensureGDriveFolder, ensureGDriveFolderFetch]
  split_ifs <;> (try split) <;> exact ⟨rfl, rfl, rfl, rfl⟩

/-- `uploadToBox` never touches tokens or the local documents. -/
theorem uploadToBox_preserves {α : Type} (net : Net α) (st : SyncState α)
    (d : Doc α) (fname : String) :
    ((uploadToBox net st d fname).2.1).storedToken = st.storedToken
    ∧ ((uploadToBox net st d fname).2.1).accessToken = st.accessToken
    ∧ ((uploadToBox net st d fname).2.1).localData = st.localData
    ∧ ((uploadToBox net st d fname).2.1).localSettings = st.localSettings := by
  have hp := ensureBoxFolder_preserves net st
  rcases hE : ensureBoxFolder net st with ⟨res, st₁, t₁⟩
  rw [hE] at hp
  unfold uploadToBox
  rw [hE]
  cases res with
  | error e => exact hp
  | ok f =>
      dsimp only
      split_ifs <;> exact hp

/-- `uploadToGDrive` never touches tokens or the local documents. -/
theorem uploadToGDrive_preserves {α : Type} (net : Net α)
    (st : SyncState α) (d : Doc α) (fname : String) :
    ((uploadToGDrive net st d fname).2.1).storedToken = st.storedToken
    ∧ ((uploadToGDrive net st d fname).2.1).accessToken = st.accessToken
    ∧ ((uploadToGDrive net st d fname).2.1).localData = st.localData
    ∧ ((uploadToGDrive net st d fname).2.1).localSettings = st.localSettings := by
  have hp := ensureGDriveFolder_preserves net st
  rcases hE : ensureGDriveFolder net st with ⟨res, st₁, t₁⟩
  rw [hE] at hp
  unfold uploadToGDrive
  rw [hE]
  cases res with
  | error e => exact hp
  | ok f =>
      dsimp only
      split_ifs <;> exact hp

/-- `uploadData` never touches tokens or the local documents (the local
write of the merged values in `syncData` happens outside the upload). -/
theorem uploadData_preserves {α : Type} (net : Net α) (st : SyncState α)
    (d : Doc α) (b : Bool) :
    ((uploadData net st d b).2.1).storedToken = st.storedToken
    ∧ ((uploadData net st d b).2.1).accessToken = st.accessToken
    ∧ ((uploadData net st d b).2.1).localData = st.localData
    ∧ ((uploadData net st d b).2.1).localSettings = st.localSettings := by
  unfold uploadData
  cases hpv : st.provider with
  | none => exact ⟨rfl, rfl, rfl, rfl⟩
  | some p =>
      cases p with
      | box =>
          exact uploadToBox_preserves net st d
            (if b then settingsFileName else fileName)
      | onedrive =>
          unfold uploadToOneDrive
          dsimp only
          split_ifs <;> exact ⟨rfl, rfl, rfl, rfl⟩
      | gdrive =>
          exact uploadToGDrive_preserves net st d
            (if b then settingsFileName else fileName)

/-- Claim C2, amended: `CloudStorageSync` does not special-case 401.  A
401 on the Box upload call produces the generic
`Failed to upload to Box` error with the stored credential left intact,
and a 401 on the OneDrive content GET produces the generic
`Failed to download from OneDrive` error with the state unchanged; no
distinguished authentication-expired error exists and no credential is
purged. -/
theorem claim2_amended (α : Type) :
    (∀ (net : Net α) (st st₁ : SyncState α) (f : String) (t₁ : List (Req α))
        (d : Doc α) (fname : String),
        ensureBoxFolder net st = (Except.ok f, st₁, t₁) →
        (findBoxFile net fname f).1 = none →
        (net.boxUpload none).status = 401 →
        uploadToBox net st d fname
          = (Except.error "Failed to upload to Box", st₁,
              t₁ ++ (findBoxFile net fname f).2 ++ [Req.boxUploadNew d])
          ∧ st₁.storedToken = st.storedToken
          ∧ st₁.accessToken = st.accessToken)
    ∧ (∀ (net : Net α) (st : SyncState α) (fname : String),
        (net.odGet fname).status = 401 →
        downloadFromOneDrive net st fname
          = (Except.error "Failed to download from OneDrive", st,
              [Req.odGet fname])) := by
  constructor
  · intro net st st₁ f t₁ d fname h1 h2 h3
    have hok : (net.boxUpload none).isOk = false := by
      simp [HResp.isOk, h3]
    have hp := ensureBoxFolder_preserves net st
    rw [h1] at hp
    refine ⟨?_, hp.1, hp.2.1⟩
    simp [uploadToBox, h1, h2, truthy, hok]
  · intro net st fname h
    simp [downloadFromOneDrive, h, HResp.isOk]

/-- Claim C2 counterexample: with a concrete 401 response to the Box
upload call, the result is the generic upload failure, the stored
credential survives untouched, and the outcome is identical to the one a
500 response produces — nothing distinguishes authentication expiry. -/
theorem claim2_counterexample :
    (uploadToBox (mkNet [] 201 200 [] 401 401 200 404)
        ({ baseState with folderId := some "F" }) [("a", 1)] fileName).1
      = Except.error "Failed to upload to Box"
    ∧ ((uploadToBox (mkNet [] 201 200 [] 401 401 200 404)
        ({ baseState with folderId := some "F" }) [("a", 1)] fileName).2.1).storedToken
      = some "tok"
    ∧ (uploadToBox (mkNet [] 201 200 [] 500 500 200 404)
          ({ baseState with folderId := some "F" }) [("a", 1)] fileName).1
      = (uploadToBox (mkNet [] 201 200 [] 401 401 200 404)
          ({ baseState with folderId := some "F" }) [("a", 1)] fileName).1 :=
  ⟨rfl, rfl, rfl⟩

/-- Witness for the amended C2 at a concrete 401 environment. -/
theorem claim2_witness :
    uploadToBox (mkNet [] 201 200 [] 401 401 200 404)
        ({ baseState with folderId := some "F" }) [("a", 1)] fileName
      = (Except.error "Failed to upload to Box",
          { baseState with folderId := some "F" },
          [Req.boxListItems "F", Req.boxUploadNew [("a", 1)]])
    ∧ downloadFromOneDrive (mkNet [] 201 200 [] 201 201 200 401)
        baseState fileName
      = (Except.error "Failed to download from OneDrive", baseState,
          [Req.odGet fileName]) :=
  ⟨((claim2_amended Nat).1 (mkNet [] 201 200 [] 401 401 200 404)
      ({ baseState with folderId := some "F" })
      ({ baseState with folderId := some "F" }) "F" [] [("a", 1)] fileName
      rfl rfl rfl).1,
    (claim2_amended Nat).2 (mkNet [] 201 200 [] 201 201 200 401) baseState
      fileName rfl⟩

/-- Claim C3, amended: for all three adapters a file that is absent
(the lookup yields null) downloads as absent, not as an error; but a 404
on the content-fetch call itself is normalized to absent only by OneDrive
— Box throws its generic download failure instead. -/
theorem claim3_amended (α : Type) :
    (∀ (net : Net α) (st st₁ : SyncState α) (f fname : String)
        (t₁ : List (Req α)),
        ensureBoxFolder net st = (Except.ok f, st₁, t₁) →
        (findBoxFile net fname f).1 = none →
        downloadFromBox net st fname
          = (Except.ok none, st₁, t₁ ++ (findBoxFile net fname f).2))
    ∧ (∀ (net : Net α) (st st₁ : SyncState α) (f fname : String)
        (t₁ : List (Req α)),
        ensureGDriveFolder net st = (Except.ok f, st₁, t₁) →
        (findGDriveFile net fname f).1 = none →
        downloadFromGDrive net st fname
          = (Except.ok none, st₁, t₁ ++ (findGDriveFile net fname f).2))
    ∧ (∀ (net : Net α) (st : SyncState α) (fname : String),
        (net.odGet fname).status = 404 →
        downloadFromOneDrive net st fname
          = (Except.ok none, st, [Req.odGet fname]))
    ∧ (∀ (net : Net α) (st st₁ : SyncState α) (f fname fid : String)
        (t₁ : List (Req α)),
        ensureBoxFolder net st = (Except.ok f, st₁, t₁) →
        (findBoxFile net fname f).1 = some fid → fid ≠ "" →
        (net.boxFileContent fid).status = 404 →
        downloadFromBox net st fname
          = (Except.error "Failed to download from Box", st₁,
              t₁ ++ (findBoxFile net fname f).2 ++ [Req.boxFileContent fid])) := by
  refine ⟨?_, ?_, ?_, ?_⟩
  · intro net st st₁ f fname t₁ h1 h2
    simp [downloadFromBox, h1, h2, truthy]
  · intro net st st₁ f fname t₁ h1 h2
    simp [downloadFromGDrive, h1, h2]
  · intro net st fname h
    simp [downloadFromOneDrive, h]
  · intro net st st₁ f fname fid t₁ h1 h2 hfid h3
    have hok : (net.boxFileContent fid).isOk = false := by
      simp [HResp.isOk, h3]
    have hT : truthy (some fid) = true := by
      simp [truthy, bne_iff_ne, hfid]
    simp [downloadFromBox, h1, h2, hT, hok]

/-- Claim C3 counterexample: for Box, when the file is found and the
content fetch itself answers 404, the download throws the generic error
instead of normalizing to absent, so the 404-to-absent mapping is not
applied consistently across the three adapters. -/
theorem claim3_counterexample :
    (downloadFromBox
        (mkNet [] 201 200 [⟨"f1", "planner-data.json", "file"⟩] 201 201 404 404)
        ({ baseState with folderId := some "F" }) fileName).1
      = Except.error "Failed to download from Box" := by
  rfl

/-- Witness for the amended C3: an absent Box file downloads as absent,
and a OneDrive 404 downloads as absent. -/
theorem claim3_witness :
    downloadFromBox (firstSyncNet Nat "F")
        ({ baseState with folderId := some "F" }) fileName
      = (Except.ok none, { baseState with folderId := some "F" },
          [Req.boxListItems "F"])
    ∧ downloadFromOneDrive (firstSyncNet Nat "F") baseState fileName
      = (Except.ok none, baseState, [Req.odGet fileName]) :=
  ⟨(claim3_amended Nat).1 _ _ _ "F" fileName [] rfl rfl,
    (claim3_amended Nat).2.2.1 _ baseState fileName rfl⟩

/-- Claim C10: every non-ok response to the file-lookup request — 500 and
401 included — makes `findBoxFile` and `findGDriveFile` return null
rather than signal an error; downstream, the Box download then reports
absent and the Box upload issues a create call, never an update. -/
theorem claim10_lookup_failure_absent (α : Type) :
    (∀ (net : Net α) (fname fid : String),
        (net.boxListItems fid).isOk = false →
        findBoxFile net fname fid = (none, [Req.boxListItems fid]))
    ∧ (∀ (net : Net α) (fname fid : String),
        (net.gdFindFile fname fid).isOk = false →
        findGDriveFile net fname fid = (none, [Req.gdFindFile fname fid]))
    ∧ (∀ (net : Net α) (st st₁ : SyncState α) (f fname : String)
        (t₁ : List (Req α)) (d : Doc α),
        ensureBoxFolder net st = (Except.ok f, st₁, t₁) →
        (net.boxListItems f).isOk = false →
        downloadFromBox net st fname
            = (Except.ok none, st₁, t₁ ++ [Req.boxListItems f])
          ∧ (uploadToBox net st d fname).2.2
              = t₁ ++ [Req.boxListItems f, Req.boxUploadNew d]) := by
  have hfind : ∀ (net : Net α) (fname fid : String),
      (net.boxListItems fid).isOk = false →
      findBoxFile net fname fid = (none, [Req.boxListItems fid]) := by
    intro net fname fid h
    simp [findBoxFile, h]
  refine ⟨hfind, ?_, ?_⟩
  · intro net fname fid h
    simp [findGDriveFile, h]
  · intro net st st₁ f fname t₁ d h1 h2
    have hf := hfind net fname f h2
    constructor
    · simp [downloadFromBox, h1, hf, truthy]
    · simp only [uploadToBox, h1, hf, truthy]
      split_ifs <;> simp

/-- Witness for C10 at a concrete environment whose listing endpoint
answers 500. -/
theorem claim10_witness :
    findBoxFile (mkNet [] 201 500 [] 201 201 200 404) fileName "F"
      = (none, [Req.boxListItems "F"])
    ∧ downloadFromBox (mkNet [] 201 500 [] 201 201 200 404)
        ({ baseState with folderId := some "F" }) fileName
      = (Except.ok none, { baseState with folderId := some "F" },
          [Req.boxListItems "F"]) :=
  ⟨(claim10_lookup_failure_absent Nat).1 (mkNet [] 201 500 [] 201 201 200 404)
      fileName "F" rfl,
    ((claim10_lookup_failure_absent Nat).2.2 (mkNet [] 201 500 [] 201 201 200 404)
        ({ baseState with folderId := some "F" })
        ({ baseState with folderId := some "F" }) "F" fileName [] [("a", 1)]
        rfl rfl).1⟩

/-- Claim C5: whichever step of `syncData` fails — first download, second
download, first upload or second upload — all remaining steps are skipped
(the request trace is exactly the requests of the completed and failing
steps), and a single `{success:false}` result carrying that step's error
message is returned instead of a thrown error; local writes that already
completed are not rolled back: after an upload failure the local slots
still hold the merged documents. -/
theorem claim5_sync_failure_aborts (α : Type) (net : Net α)
    (st : SyncState α) :
    (∀ e st₁ t₁,
        downloadData net st false = (Except.error e, st₁, t₁) →
        syncData net st = (SyncResult.failed e, st₁, t₁))
    ∧ (∀ cd st₁ t₁ e st₂ t₂,
        downloadData net st false = (Except.ok cd, st₁, t₁) →
        downloadData net st₁ true = (Except.error e, st₂, t₂) →
        syncData net st = (SyncResult.failed e, st₂, t₁ ++ t₂))
    ∧ (∀ cd st₁ t₁ cs st₂ t₂ e st₄ t₃,
        downloadData net st false = (Except.ok cd, st₁, t₁) →
        downloadData net st₁ true = (Except.ok cs, st₂, t₂) →
        uploadData net
            { st₂ with
              localData := some (mergeDocs (st₂.localData.getD []) (cd.getD [])),
              localSettings :=
                some (mergeDocs (st₂.localSettings.getD []) (cs.getD [])) }
            (mergeDocs (st₂.localData.getD []) (cd.getD [])) false
          = (Except.error e, st₄, t₃) →
        syncData net st = (SyncResult.failed e, st₄, t₁ ++ t₂ ++ t₃)
          ∧ st₄.localData = some (mergeDocs (st₂.localData.getD []) (cd.getD []))
          ∧ st₄.localSettings
              = some (mergeDocs (st₂.localSettings.getD []) (cs.getD [])))
    ∧ (∀ cd st₁ t₁ cs st₂ t₂ u st₄ t₃ e st₅ t₄,
        downloadData net st false = (Except.ok cd, st₁, t₁) →
        downloadData net st₁ true = (Except.ok cs, st₂, t₂) →
        uploadData net
            { st₂ with
              localData := some (mergeDocs (st₂.localData.getD []) (cd.getD [])),
              localSettings :=
                some (mergeDocs (st₂.localSettings.getD []) (cs.getD [])) }
            (mergeDocs (st₂.localData.getD []) (cd.getD [])) false
          = (Except.ok u, st₄, t₃) →
        uploadData net st₄
            (mergeDocs (st₂.localSettings.getD []) (cs.getD [])) true
          = (Except.error e, st₅, t₄) →
        syncData net st = (SyncResult.failed e, st₅, t₁ ++ t₂ ++ t₃ ++ t₄)
          ∧ st₅.localData = some (mergeDocs (st₂.localData.getD []) (cd.getD []))
          ∧ st₅.localSettings
              = some (mergeDocs (st₂.localSettings.getD []) (cs.getD []))) := by
  refine ⟨?_, ?_, ?_, ?_⟩
  · intro e st₁ t₁ h1
    simp only [syncData, h1]
  · intro cd st₁ t₁ e st₂ t₂ h1 h2
    simp only [syncData, h1, h2]
  · intro cd st₁ t₁ cs st₂ t₂ e st₄ t₃ h1 h2 h3
    have hp := uploadData_preserves net
      { st₂ with
        localData := some (mergeDocs (st₂.localData.getD []) (cd.getD [])),
        localSettings :=
          some (mergeDocs (st₂.localSettings.getD []) (cs.getD [])) }
      (mergeDocs (st₂.localData.getD []) (cd.getD [])) false
    rw [h3] at hp
    exact ⟨by simp only [syncData, h1, h2, h3], hp.2.2.1, hp.2.2.2⟩
  · intro cd st₁ t₁ cs st₂ t₂ u st₄ t₃ e st₅ t₄ h1 h2 h3 h4
    have hp1 := uploadData_preserves net
      { st₂ with
        localData := some (mergeDocs (st₂.localData.getD []) (cd.getD [])),
        localSettings :=
          some (mergeDocs (st₂.localSettings.getD []) (cs.getD [])) }
      (mergeDocs (st₂.localData.getD []) (cd.getD [])) false
    rw [h3] at hp1
    have hp2 := uploadData_preserves net st₄
      (mergeDocs (st₂.localSettings.getD []) (cs.getD [])) true
    rw [h4] at hp2
    refine ⟨by simp only [syncData, h1, h2, h3, h4], ?_, ?_⟩
    · exact hp2.2.2.1.trans hp1.2.2.1
    · exact hp2.2.2.2.trans hp1.2.2.2

/-- Witness for C5: a failing folder creation makes the very first
download fail and aborts the cycle with its message; a failing upload
aborts after the local write, with the local slots keeping the merged
documents. -/
theorem claim5_witness :
    syncData (mkNet [] 500 200 [] 201 201 200 404) baseState
      = (SyncResult.failed "Failed to create folder in Box", baseState,
          [Req.boxSearchFolders, Req.boxCreateFolder])
    ∧ syncData (mkNet [] 201 200 [] 500 500 200 404) baseState
      = (SyncResult.failed "Failed to upload to Box",
          { baseState with folderId := some "F" },
          [Req.boxSearchFolders, Req.boxCreateFolder, Req.boxListItems "F",
            Req.boxListItems "F", Req.boxListItems "F",
            Req.boxUploadNew [("a", 1)]])
    ∧ ({ baseState with folderId := some "F" } : SyncState Nat).localData
        = some [("a", 1)] :=
  ⟨(claim5_sync_failure_aborts Nat (mkNet [] 500 200 [] 201 201 200 404)
      baseState).1 "Failed to create folder in Box" baseState
      [Req.boxSearchFolders, Req.boxCreateFolder] rfl,
    ((claim5_sync_failure_aborts Nat (mkNet [] 201 200 [] 500 500 200 404)
        baseState).2.2.1 none ({ baseState with folderId := some "F" })
        [Req.boxSearchFolders, Req.boxCreateFolder, Req.boxListItems "F"]
        none ({ baseState with folderId := some "F" }) [Req.boxListItems "F"]
        "Failed to upload to Box" ({ baseState with folderId := some "F" })
        [Req.boxListItems "F", Req.boxUploadNew [("a", 1)]] rfl rfl rfl).1,
    ((claim5_sync_failure_aborts Nat (mkNet [] 201 200 [] 500 500 200 404)
        baseState).2.2.1 none ({ baseState with folderId := some "F" })
        [Req.boxSearchFolders, Req.boxCreateFolder, Req.boxListItems "F"]
        none ({ baseState with folderId := some "F" }) [Req.boxListItems "F"]
        "Failed to upload to Box" ({ baseState with folderId := some "F" })
        [Req.boxListItems "F", Req.boxUploadNew [("a", 1)]] rfl rfl rfl).2.1⟩

/-- Claim C6: a first-ever Box sync against an empty remote — both
downloads come back absent — merges without changing the local documents,
writes them back unchanged, uploads both as newly created files (no
update-in-place call), creates the folder exactly once, and returns
success with the merged document equal to the original local document. -/
theorem claim6_first_sync (α : Type) (tok stok : Option String)
    (exp : Option Nat) (L S : Doc α) (f : String) (hash : String)
    (hf : f ≠ "") :
    syncData (firstSyncNet α f)
        { provider := some Provider.box, accessToken := tok,
          storedToken := stok, storedExpiry := exp, folderId := none,
          localData := some L, localSettings := some S, urlHash := hash }
      = (SyncResult.ok L,
          { provider := some Provider.box, accessToken := tok,
            storedToken := stok, storedExpiry := exp, folderId := some f,
            localData := some L, localSettings := some S, urlHash := hash },
          [Req.boxSearchFolders, Req.boxCreateFolder, Req.boxListItems f,
            Req.boxListItems f, Req.boxListItems f, Req.boxUploadNew L,
            Req.boxListItems f, Req.boxUploadNew S])
      ∧ createFolderCount
          ([Req.boxSearchFolders, Req.boxCreateFolder, Req.boxListItems f,
            Req.boxListItems f, Req.boxListItems f, Req.boxUploadNew L,
            Req.boxListItems f, Req.boxUploadNew S] : List (Req α)) = 1
      ∧ updateUploadCount
          ([Req.boxSearchFolders, Req.boxCreateFolder, Req.boxListItems f,
            Req.boxListItems f, Req.boxListItems f, Req.boxUploadNew L,
            Req.boxListItems f, Req.boxUploadNew S] : List (Req α)) = 0 := by
  have hT : truthy (some f) = true := by
    simp [truthy, bne_iff_ne, hf]
  refine ⟨?_, ?_, ?_⟩
  · simp [syncData, downloadData, downloadFromBox, ensureBoxFolder,
      ensureBoxFolderFetch, findBoxFile, uploadData, uploadToBox,
      firstSyncNet, truthy, HResp.isOk, hT, hf, mergeDocs]
  · simp [createFolderCount, List.countP_cons, List.countP_nil,
      isCreateFolderReq]
  · simp [updateUploadCount, List.countP_cons, List.countP_nil,
      isUpdateUploadReq]

/-- Witness for C6 at a concrete state and folder id. -/
theorem claim6_witness :
    syncData (firstSyncNet Nat "F") baseState
      = (SyncResult.ok [("a", 1)], { baseState with folderId := some "F" },
          [Req.boxSearchFolders, Req.boxCreateFolder, Req.boxListItems "F",
            Req.boxListItems "F", Req.boxListItems "F",
            Req.boxUploadNew [("a", 1)], Req.boxListItems "F",
            Req.boxUploadNew [("s", 2)]]) :=
  (claim6_first_sync Nat (some "tok") (some "tok") none [("a", 1)]
      [("s", 2)] "F" "" (by decide)).1
